import Mathlib

/-!
Verification of the maritime AIS proxy server.

The embedding models the backend WebSocket proxy (the variant file that
carries the MMSI filter and the statistics counters; `server.js` is the
same server without filter/statistics).  JavaScript values flowing through
the server are modelled by a small JSON datatype; the module-level mutable
variables (`clients`, `aisStreamSocket`, `reconnectTimeout`, `isConnecting`
and the three counters) form an explicit server state, and each WebSocket
event handler of the source becomes a state-transition function that also
returns the observable outputs (socket creations, sends, closes) the
handler performs.  Timestamps attached to status envelopes and console
logging are elided: they do not affect any state or delivery decision.
-/

namespace Maritime

/-- JSON values, as produced by `JSON.parse`.  Numeric payloads are
modelled as integers (MMSI identifiers and filter bounds are integral). -/
inductive Json where
  | null : Json
  | bool (b : Bool) : Json
  | num (n : Int) : Json
  | str (s : String) : Json
  | arr (elems : List Json) : Json
  | obj (fields : List (String × Json)) : Json

/-- First binding of a key in an object's field list (JS objects hold at
most one binding per key, so first = the binding). -/
def getField : List (String × Json) → String → Option Json
  | [], _ => none
  | (k', v) :: rest, k => if k' == k then some v else getField rest k

/-- JavaScript property access `j[k]`: `none` models `undefined`.
Property access on non-objects yields `undefined` (string/array index
properties are never the field names the server reads). -/
def jsGet : Json → String → Option Json
  | .obj fs, k => getField fs k
  | _, _ => none

/-- JavaScript truthiness of a value.  `null`, `false`, `0` and the empty
string are falsy; arrays and objects are always truthy. -/
def truthy : Json → Bool
  | .null => false
  | .bool b => b
  | .num n => n != 0
  | .str s => s != ""
  | .arr _ => true
  | .obj _ => true

/-- Truthiness of a possibly-absent value (`undefined` is falsy). -/
def truthyOpt : Option Json → Bool
  | none => false
  | some v => truthy v

/-- Decimal-digit prefix of a character list, `none` when there is no
digit (`parseInt` returns `NaN` then). -/
def digitsVal (cs : List Char) : Option Nat :=
  let ds := cs.takeWhile (fun c => c.isDigit)
  if ds = [] then none
  else some (ds.foldl (fun a c => a * 10 + (c.toNat - 48)) 0)

/-- `parseInt` on a string: skip leading whitespace, optional sign, then
the longest decimal digit prefix; `none` models `NaN`.  (The hexadecimal
`0x` prefix form of `parseInt` is not modelled; MMSI values and bounds are
decimal.) -/
def parseIntStr (s : String) : Option Int :=
  let cs := s.toList.dropWhile (fun c => c == ' ' || c == '\t' || c == '\n' || c == '\r')
  match cs with
  | '-' :: rest => (digitsVal rest).map (fun n => -(n : Int))
  | '+' :: rest => (digitsVal rest).map (fun n => (n : Int))
  | rest => (digitsVal rest).map (fun n => (n : Int))

/-- `parseInt(v)` for an arbitrary value: ToString then digit-prefix
parse.  `true`/`false`/`null`/objects stringify to non-numeric text
(`NaN`); an array stringifies to its comma-joined elements, so its
numeric prefix is that of its first element. -/
def parseIntJS : Json → Option Int
  | .num n => some n
  | .str s => parseIntStr s
  | .arr (x :: _) => parseIntJS x
  | _ => none

/-- MMSI range configuration: `MMSI_MIN` / `MMSI_MAX`, `none` when the
corresponding environment variable is unset. -/
structure FilterConfig where
  mmsiMin : Option Int
  mmsiMax : Option Int

/-- Source `isMMSIFilterEnabled`: both bounds must be configured. -/
def isMMSIFilterEnabled (cfg : FilterConfig) : Bool :=
  cfg.mmsiMin.isSome && cfg.mmsiMax.isSome

/-- Source `isMMSIInRange`: accept everything when filtering is disabled,
otherwise compare `parseInt(mmsi)` against both bounds (a `NaN` result
fails both comparisons, hence is rejected). -/
def isMMSIInRange (cfg : FilterConfig) (mmsi : Json) : Bool :=
  match cfg.mmsiMin, cfg.mmsiMax with
  | some lo, some hi =>
      match parseIntJS mmsi with
      | some n => decide (lo ≤ n) && decide (n ≤ hi)
      | none => false
  | _, _ => true

/-- MMSI extraction of the upstream message handler:
`MetaData.MMSI` when `MetaData` and that field are truthy, else
`Message.PositionReport.UserID` when `Message` and `PositionReport` are
truthy (the `UserID` field itself may be absent), else `null`. -/
def extractMMSI (aisMessage : Json) : Option Json :=
  if truthyOpt (jsGet aisMessage "MetaData")
      && truthyOpt ((jsGet aisMessage "MetaData").bind (fun x => jsGet x "MMSI")) then
    (jsGet aisMessage "MetaData").bind (fun x => jsGet x "MMSI")
  else if truthyOpt (jsGet aisMessage "Message")
      && truthyOpt ((jsGet aisMessage "Message").bind (fun x => jsGet x "PositionReport")) then
    ((jsGet aisMessage "Message").bind (fun x => jsGet x "PositionReport")).bind
      (fun x => jsGet x "UserID")
  else none

/-- Filter decision of the message handler: the message is dropped
exactly when a truthy identifier was extracted and `isMMSIInRange`
rejects it (`if (mmsi && !isMMSIInRange(mmsi)) return;`). -/
def messagePasses (cfg : FilterConfig) (aisMessage : Json) : Bool :=
  match extractMMSI aisMessage with
  | some mmsi => if truthy mmsi && !(isMMSIInRange cfg mmsi) then false else true
  | none => true

/-- Server-held credential (`process.env.AIS_API_KEY` falling back to the
hard-coded key; the concrete string is irrelevant to every property). -/
def API_KEY : String := "f293f83853263b13e78e1503402e1c374f67beb7"

/-- WebSocket `readyState` constants. -/
inductive ReadyState where
  | CONNECTING : ReadyState
  | OPEN : ReadyState
  | CLOSING : ReadyState
  | CLOSED : ReadyState
deriving DecidableEq

/-- One downstream browser connection: its identity in the `clients` set
and its transport `readyState`. -/
structure Client where
  id : Nat
  readyState : ReadyState
deriving DecidableEq

/-- Envelopes sent to browser clients (`JSON.stringify`-ed on the wire;
the `timestamp` field and the error detail are elided). -/
inductive Envelope where
  | statusConnectedToProxy : Envelope
  | statusConnected : Envelope
  | statusDisconnected : Envelope
  | statusError : Envelope
  | aisData (data : Json) : Envelope

/-- Observable side effects performed by the handlers. -/
inductive Output where
  | connectUpstream : Output
  | upstreamSend (payload : Json) : Output
  | clientSend (c : Nat) (payload : Envelope) : Output
  | closeUpstream : Output

/-- The module-level mutable state of the server.  The upstream socket is
modelled by its `readyState` (`none` = the `aisStreamSocket` variable is
`null`); `reconnectTimeout` is the list of live (scheduled, not yet fired
or cleared) reconnect timers with their delays — the source stores a
single handle, and the list lets "at most one timer outstanding" be a
provable invariant rather than a modelling assumption. -/
structure ServerState where
  clients : List Client
  aisStreamSocket : Option ReadyState
  reconnectTimeout : List Nat
  isConnecting : Bool
  totalMessagesReceived : Nat
  totalMessagesFiltered : Nat
  totalMessagesForwarded : Nat
deriving DecidableEq

/-- State at process start. -/
def initialState : ServerState :=
  { clients := []
    aisStreamSocket := none
    reconnectTimeout := []
    isConnecting := false
    totalMessagesReceived := 0
    totalMessagesFiltered := 0
    totalMessagesForwarded := 0 }

/-- Source `broadcastToClients`: serialize the envelope once and send
that one payload to every client whose `readyState` is `OPEN`; all other
clients are skipped.  The function reads the client set and mutates
nothing. -/
def broadcastToClients (st : ServerState) (message : Envelope) :
    ServerState × List Output :=
  (st, st.clients.filterMap fun cl =>
    if cl.readyState == .OPEN then some (.clientSend cl.id message) else none)

/-- Subscription sent on upstream `open`: server key, global bounding
box, `PositionReport` filter. -/
def subscriptionMessage : Json :=
  .obj [("APIKey", .str API_KEY),
        ("BoundingBoxes",
          .arr [.arr [.arr [.num (-90), .num (-180)], .arr [.num 90, .num 180]]]),
        ("FilterMessageTypes", .arr [.str "PositionReport"])]

/-- Source `connectToAISStream`: no-op when `isConnecting` or the socket
is `OPEN`; otherwise create the upstream socket (readyState
`CONNECTING`) and raise `isConnecting`. -/
def connectToAISStream (st : ServerState) : ServerState × List Output :=
  if st.isConnecting || st.aisStreamSocket == some .OPEN then (st, [])
  else
    ({ st with isConnecting := true, aisStreamSocket := some .CONNECTING },
     [.connectUpstream])

/-- Upstream `open` handler: the socket becomes `OPEN`, `isConnecting`
drops, the subscription is sent, and a `connected` status is broadcast. -/
def handleUpstreamOpen (st : ServerState) : ServerState × List Output :=
  ({ st with isConnecting := false, aisStreamSocket := some .OPEN },
   .upstreamSend subscriptionMessage :: (broadcastToClients st .statusConnected).2)

/-- Upstream `message` handler.  `received` is incremented before the
parse; a parse failure (`raw = none`) or the `TypeError` raised by
property access on a parsed `null` is caught, logging and dropping the
message.  Otherwise the MMSI filter decides between counting the message
filtered (dropped) and counting it forwarded (broadcast in an `ais_data`
envelope). -/
def handleUpstreamMessage (cfg : FilterConfig) (st : ServerState)
    (raw : Option Json) : ServerState × List Output :=
  match raw with
  | none => ({ st with totalMessagesReceived := st.totalMessagesReceived + 1 }, [])
  | some .null => ({ st with totalMessagesReceived := st.totalMessagesReceived + 1 }, [])
  | some aisMessage =>
      if messagePasses cfg aisMessage then
        ({ st with totalMessagesReceived := st.totalMessagesReceived + 1,
                   totalMessagesForwarded := st.totalMessagesForwarded + 1 },
         (broadcastToClients st (.aisData aisMessage)).2)
      else
        ({ st with totalMessagesReceived := st.totalMessagesReceived + 1,
                   totalMessagesFiltered := st.totalMessagesFiltered + 1 }, [])

/-- Upstream `error` handler: drop `isConnecting`, broadcast an `error`
status.  The socket variable is kept (the socket itself is dying; its
`close` event follows and clears the variable). -/
def handleUpstreamError (st : ServerState) : ServerState × List Output :=
  ({ st with isConnecting := false, aisStreamSocket := some .CLOSED },
   (broadcastToClients st .statusError).2)

/-- Upstream `close` handler: drop `isConnecting`, null the socket,
broadcast a `disconnected` status, and schedule one 5000 ms reconnect
timer when clients remain. -/
def handleUpstreamClose (st : ServerState) : ServerState × List Output :=
  if st.clients.length > 0 then
    ({ st with isConnecting := false, aisStreamSocket := none,
               reconnectTimeout := st.reconnectTimeout ++ [5000] },
     (broadcastToClients st .statusDisconnected).2)
  else
    ({ st with isConnecting := false, aisStreamSocket := none },
     (broadcastToClients st .statusDisconnected).2)

/-- A scheduled reconnect timer fires: it is consumed and
`connectToAISStream` runs. -/
def handleTimerFire (st : ServerState) : ServerState × List Output :=
  match st.reconnectTimeout with
  | [] => (st, [])
  | _ :: rest => connectToAISStream { st with reconnectTimeout := rest }

/-- Browser `connection` handler: add the (fresh) client, send it the
`connected_to_proxy` welcome; if it is the first client ensure the
upstream connection, otherwise tell a late joiner the upstream is already
connected. -/
def handleClientConnect (st : ServerState) (c : Nat) : ServerState × List Output :=
  if st.clients.any (fun cl => cl.id == c) then (st, [])
  else if (st.clients ++ [Client.mk c .OPEN]).length == 1 then
    ((connectToAISStream { st with clients := st.clients ++ [Client.mk c .OPEN] }).1,
     .clientSend c .statusConnectedToProxy ::
       (connectToAISStream { st with clients := st.clients ++ [Client.mk c .OPEN] }).2)
  else if st.aisStreamSocket == some .OPEN then
    ({ st with clients := st.clients ++ [Client.mk c .OPEN] },
     [.clientSend c .statusConnectedToProxy, .clientSend c .statusConnected])
  else
    ({ st with clients := st.clients ++ [Client.mk c .OPEN] },
     [.clientSend c .statusConnectedToProxy])

/-- Object-spread source fields: spreading a non-object contributes no
string-keyed fields (index properties of spread strings/arrays are never
read by the server). -/
def spreadFields : Json → List (String × Json)
  | .obj fs => fs
  | _ => []

/-- Set key `k` to `v` in a field list: overwrite the existing binding in
place, or append a new one (the semantics of `{...sub, k: v}`). -/
def setKey : List (String × Json) → String → Json → List (String × Json)
  | [], k, v => [(k, v)]
  | (k', v') :: rest, k, v =>
      if k' == k then (k, v) :: rest else (k', v') :: setKey rest k v

/-- Subscription forwarded upstream for a viewer-supplied preference
object: `{...data.subscription, APIKey: API_KEY}`. -/
def buildSubscription (sub : Json) : Json :=
  .obj (setKey (spreadFields sub) "APIKey" (.str API_KEY))

/-- Browser client `message` handler: parse (failures are logged and
dropped); on a `subscribe` message carrying a truthy `subscription`,
forward it upstream with the server key merged in — but only while the
upstream socket is `OPEN`. -/
def handleClientMessage (st : ServerState) (raw : Option Json) :
    ServerState × List Output :=
  match raw with
  | none => (st, [])
  | some data =>
      if (match jsGet data "type" with
          | some (.str t) => t == "subscribe"
          | _ => false)
          && truthyOpt (jsGet data "subscription") then
        if st.aisStreamSocket == some .OPEN then
          match jsGet data "subscription" with
          | some sub => (st, [.upstreamSend (buildSubscription sub)])
          | none => (st, [])
        else (st, [])
      else (st, [])

/-- Browser client `close` handler: remove the client from the set; when
the set becomes empty, clear the held reconnect timer and close / null
the upstream socket. -/
def handleClientClose (st : ServerState) (c : Nat) : ServerState × List Output :=
  if (st.clients.filter (fun cl => cl.id != c)).length == 0 then
    match st.aisStreamSocket with
    | some _ =>
        ({ st with clients := st.clients.filter (fun cl => cl.id != c),
                   reconnectTimeout := st.reconnectTimeout.dropLast,
                   aisStreamSocket := none }, [.closeUpstream])
    | none =>
        ({ st with clients := st.clients.filter (fun cl => cl.id != c),
                   reconnectTimeout := st.reconnectTimeout.dropLast }, [])
  else ({ st with clients := st.clients.filter (fun cl => cl.id != c) }, [])

/-- Browser client `error` handler: log only; no state change. -/
def handleClientError (st : ServerState) (_c : Nat) : ServerState × List Output :=
  (st, [])

/-- Events driving the server: downstream connection lifecycle and
messages, upstream socket callbacks (guarded on the socket actually
existing in the matching state), and the reconnect timer firing. -/
inductive Event where
  | clientConnect (c : Nat) : Event
  | clientMsg (c : Nat) (raw : Option Json) : Event
  | clientClose (c : Nat) : Event
  | clientError (c : Nat) : Event
  | upstreamOpen : Event
  | upstreamMsg (raw : Option Json) : Event
  | upstreamError : Event
  | upstreamClose : Event
  | timerFire : Event

/-- One event-loop step: dispatch the event to its handler.  Upstream
callbacks only run when the corresponding socket exists (`open` requires
a connecting socket, `message` an open one); a fired timer only acts when
a live timer was scheduled. -/
def step (cfg : FilterConfig) (st : ServerState) : Event → ServerState × List Output
  | .clientConnect c => handleClientConnect st c
  | .clientMsg _ raw => handleClientMessage st raw
  | .clientClose c => handleClientClose st c
  | .clientError c => handleClientError st c
  | .upstreamOpen =>
      if st.aisStreamSocket == some .CONNECTING then handleUpstreamOpen st else (st, [])
  | .upstreamMsg raw =>
      if st.aisStreamSocket == some .OPEN then handleUpstreamMessage cfg st raw else (st, [])
  | .upstreamError =>
      if st.aisStreamSocket.isSome then handleUpstreamError st else (st, [])
  | .upstreamClose =>
      if st.aisStreamSocket.isSome then handleUpstreamClose st else (st, [])
  | .timerFire => handleTimerFire st

/-- Run a list of events from a state, keeping only the final state. -/
def execList (cfg : FilterConfig) (st : ServerState) : List Event → ServerState
  | [] => st
  | e :: rest => execList cfg (step cfg st e).1 rest

/-- States the server can actually be in: reachable from process start
by some event sequence. -/
def Reachable (cfg : FilterConfig) (st : ServerState) : Prop :=
  ∃ evs : List Event, execList cfg initialState evs = st

/-! ## Specification-side definitions for the filter claims -/

/-- Numeric identifier of a message as the specification words it: the
identifier at the top-level metadata location first, the nested
position-report field as a fallback, numerically coerced when it arrives
as text. -/
def claimIdentifier (m : Json) : Option Int :=
  match (jsGet m "MetaData").bind (fun md => jsGet md "MMSI") with
  | some v => parseIntJS v
  | none =>
      (((jsGet m "Message").bind (fun b => jsGet b "PositionReport")).bind
        (fun pr => jsGet pr "UserID")).bind parseIntJS

/-- Filter predicate exactly as the claim states it: pass iff the range
is absent, or no numeric identifier can be extracted, or the extracted
identifier lies within the bounds. -/
def passesClaim (cfg : FilterConfig) (m : Json) : Bool :=
  !(isMMSIFilterEnabled cfg) ||
  match claimIdentifier m, cfg.mmsiMin, cfg.mmsiMax with
  | some i, some lo, some hi => decide (lo ≤ i) && decide (i ≤ hi)
  | _, _, _ => true

/-- Keep a value only when it is truthy. -/
def truthyOnly : Option Json → Option Json
  | some v => if truthy v then some v else none
  | none => none

/-- Identifier extraction as the amended claim words it: the metadata
identifier counts only when truthy; otherwise, when a truthy
position-report object is present, its identifier field counts only when
truthy; anything else is treated as absent. -/
def extractTruthy (m : Json) : Option Json :=
  match truthyOnly ((jsGet m "MetaData").bind (fun md => jsGet md "MMSI")) with
  | some v => some v
  | none =>
      if truthyOpt ((jsGet m "Message").bind (fun b => jsGet b "PositionReport")) then
        truthyOnly (((jsGet m "Message").bind (fun b => jsGet b "PositionReport")).bind
          (fun pr => jsGet pr "UserID"))
      else none

/-- Filter predicate as the amended claim states it: pass iff the range
is absent, or no truthy identifier is extracted, or the truthy extracted
value numerically coerces to a number within the bounds (a value that
does not coerce is filtered out). -/
def passesAmended (cfg : FilterConfig) (m : Json) : Bool :=
  !(isMMSIFilterEnabled cfg) ||
  match extractTruthy m with
  | none => true
  | some v =>
      match parseIntJS v, cfg.mmsiMin, cfg.mmsiMax with
      | some i, some lo, some hi => decide (lo ≤ i) && decide (i ≤ hi)
      | _, _, _ => false

/-! ## Filter claims -/

/-- Property access only succeeds on objects, and objects are truthy. -/
theorem jsGet_some_truthy {x : Json} {k : String} {v : Json}
    (h : jsGet x k = some v) : truthy x = true := by
  cases x
  case obj fs => simp [truthy]
  all_goals simp [jsGet] at h

/-- A truthy binding can only come from a truthy (object) base value. -/
theorem truthyOpt_bind {o : Option Json} {k : String}
    (h : truthyOpt (o.bind (fun x => jsGet x k)) = true) : truthyOpt o = true := by
  cases o with
  | none => simp [truthyOpt] at h
  | some x =>
      have h' : truthyOpt (jsGet x k) = true := h
      cases hx : jsGet x k with
      | none => rw [hx] at h'; simp [truthyOpt] at h'
      | some v => simpa [truthyOpt] using jsGet_some_truthy hx

/-- The amended extraction is the code's extraction restricted to truthy
values. -/
theorem extractTruthy_eq (m : Json) :
    extractTruthy m = truthyOnly (extractMMSI m) := by
  unfold extractTruthy extractMMSI
  by_cases h1 : truthyOpt ((jsGet m "MetaData").bind fun md => jsGet md "MMSI") = true
  · have hmd : truthyOpt (jsGet m "MetaData") = true := truthyOpt_bind h1
    rw [hmd, h1]
    simp only [Bool.and_self, if_true]
    cases hv : (jsGet m "MetaData").bind fun md => jsGet md "MMSI" with
    | none => rw [hv] at h1; simp [truthyOpt] at h1
    | some v =>
        rw [hv] at h1
        simp only [truthyOpt] at h1
        simp [truthyOnly, h1]
  · have h1' : truthyOpt ((jsGet m "MetaData").bind fun md => jsGet md "MMSI") = false :=
      Bool.eq_false_iff.mpr h1
    have honly : truthyOnly ((jsGet m "MetaData").bind fun md => jsGet md "MMSI") = none := by
      cases hv : (jsGet m "MetaData").bind fun md => jsGet md "MMSI" with
      | none => simp [truthyOnly]
      | some v => rw [hv] at h1'; simp only [truthyOpt] at h1'; simp [truthyOnly, h1']
    rw [honly, h1']
    simp only [Bool.and_false, if_false]
    by_cases h2 : truthyOpt ((jsGet m "Message").bind fun b => jsGet b "PositionReport") = true
    · have hmsg : truthyOpt (jsGet m "Message") = true := truthyOpt_bind h2
      rw [h2, hmsg]
      simp
    · have h2' : truthyOpt ((jsGet m "Message").bind fun b => jsGet b "PositionReport") = false :=
        Bool.eq_false_iff.mpr h2
      rw [h2']
      simp [truthyOnly]

/-- The code's filter decision, re-expressed through the truthy
extraction. -/
theorem messagePasses_eq_truthyOnly (cfg : FilterConfig) (m : Json) :
    messagePasses cfg m =
      (match truthyOnly (extractMMSI m) with
       | none => true
       | some v => isMMSIInRange cfg v) := by
  unfold messagePasses
  cases hv : extractMMSI m with
  | none => simp [truthyOnly]
  | some v =>
      by_cases ht : truthy v = true
      · simp only [truthyOnly, ht, if_true, Bool.true_and]
        cases hr : isMMSIInRange cfg v <;> simp [hr]
      · have ht' : truthy v = false := Bool.eq_false_iff.mpr ht
        simp [truthyOnly, ht']

/-- C1 counterexample: with filtering configured to the range
[200000000, 299999999], a message whose metadata identifier is the
number 0 carries the extractable numeric identifier 0, which is outside
the range, yet the server forwards it (JavaScript truthiness treats the
identifier 0 as absent), so the claimed predicate disagrees with the
code. -/
theorem mmsi_filter_claim_cex :
    messagePasses ⟨some 200000000, some 299999999⟩
        (.obj [("MetaData", .obj [("MMSI", .num 0)])]) = true
    ∧ claimIdentifier (.obj [("MetaData", .obj [("MMSI", .num 0)])]) = some 0
    ∧ passesClaim ⟨some 200000000, some 299999999⟩
        (.obj [("MetaData", .obj [("MMSI", .num 0)])]) = false :=
  ⟨rfl, rfl, rfl⟩

/-- C1 (amended): the filter passes a message iff the range is absent,
or the extraction yields no truthy identifier (absent fields, numeric 0
or empty text are all treated as absent), or the truthy extracted value
numerically coerces to an identifier within the bounds (text that fails
numeric coercion is filtered out). -/
theorem mmsi_filter_passes_amended (cfg : FilterConfig) (m : Json) :
    messagePasses cfg m = passesAmended cfg m := by
  rw [messagePasses_eq_truthyOnly]
  unfold passesAmended
  rw [extractTruthy_eq]
  rcases cfg with ⟨mn, mx⟩
  cases mn with
  | none =>
      cases truthyOnly (extractMMSI m) <;>
        simp [isMMSIFilterEnabled, isMMSIInRange]
  | some lo =>
      cases mx with
      | none =>
          cases truthyOnly (extractMMSI m) <;>
            simp [isMMSIFilterEnabled, isMMSIInRange]
      | some hi =>
          cases truthyOnly (extractMMSI m) with
          | none => simp [isMMSIFilterEnabled]
          | some v =>
              simp only [isMMSIFilterEnabled, isMMSIInRange, Option.isSome_some,
                Bool.and_self, Bool.not_true, Bool.false_or]
              cases parseIntJS v <;> simp

/-- C10: when one (or both) of the MMSI bounds is unset, the filter
reports itself disabled and every message passes, whatever its
identifier. -/
theorem filter_requires_both_bounds (cfg : FilterConfig)
    (h : cfg.mmsiMin = none ∨ cfg.mmsiMax = none) :
    isMMSIFilterEnabled cfg = false ∧ ∀ m : Json, messagePasses cfg m = true := by
  have hen : isMMSIFilterEnabled cfg = false := by
    rcases cfg with ⟨mn, mx⟩
    rcases h with h | h <;> subst h <;> simp [isMMSIFilterEnabled]
  refine ⟨hen, fun m => ?_⟩
  have hr : ∀ v : Json, isMMSIInRange cfg v = true := by
    intro v
    rcases cfg with ⟨mn, mx⟩
    rcases h with h | h <;> subst h
    · simp [isMMSIInRange]
    · cases mn <;> simp [isMMSIInRange]
  unfold messagePasses
  cases extractMMSI m with
  | none => rfl
  | some v => simp [hr v]

/-- C10 witness: with only `MMSI_MIN` set, the filter reports disabled
and an out-of-range identifier still passes. -/
theorem filter_requires_both_bounds_witness :
    isMMSIFilterEnabled ⟨some 5, none⟩ = false
    ∧ messagePasses ⟨some 5, none⟩
        (.obj [("MetaData", .obj [("MMSI", .num 99)])]) = true :=
  ⟨(filter_requires_both_bounds ⟨some 5, none⟩ (Or.inr rfl)).1,
   (filter_requires_both_bounds ⟨some 5, none⟩ (Or.inr rfl)).2 _⟩

/-! ## Connector idempotence (C4) -/

/-- C4: `connectToAISStream` is a no-op whenever the connector is already
connecting or the upstream socket is open, so consecutive calls in the
`Open` state neither create a second upstream connection nor trigger a
second subscription send (the single connection and subscription stem
from the one call that found the connector idle). -/
theorem ensureConnected_idempotent (st : ServerState)
    (h : st.isConnecting = true ∨ st.aisStreamSocket = some .OPEN) :
    connectToAISStream st = (st, [])
    ∧ connectToAISStream (connectToAISStream st).1 = (st, []) := by
  have h1 : connectToAISStream st = (st, []) := by
    unfold connectToAISStream
    rcases h with h | h
    · simp [h]
    · simp [h]
  exact ⟨h1, by rw [h1]; exact h1⟩

/-- C4 witness: in a concrete `Open` state, both consecutive calls
return the state unchanged with no outputs. -/
theorem ensureConnected_idempotent_witness :
    connectToAISStream
        { initialState with clients := [⟨0, .OPEN⟩], aisStreamSocket := some .OPEN }
      = ({ initialState with clients := [⟨0, .OPEN⟩], aisStreamSocket := some .OPEN }, [])
    ∧ connectToAISStream
        (connectToAISStream
          { initialState with clients := [⟨0, .OPEN⟩], aisStreamSocket := some .OPEN }).1
      = ({ initialState with clients := [⟨0, .OPEN⟩], aisStreamSocket := some .OPEN }, []) :=
  ensureConnected_idempotent _ (Or.inr rfl)

/-! ## Broadcast fan-out (C7) -/

/-- Fan-out over a client list: keeping the sends to open clients is
filtering then mapping. -/
theorem filterMap_broadcast (l : List Client) (message : Envelope) :
    (l.filterMap fun cl =>
        if cl.readyState == .OPEN then some (Output.clientSend cl.id message) else none)
      = (l.filter fun cl => cl.readyState == .OPEN).map
          fun cl => Output.clientSend cl.id message := by
  induction l with
  | nil => rfl
  | cons c rest ih =>
      simp only [List.filterMap_cons, List.filter_cons]
      cases h : c.readyState == ReadyState.OPEN
      · simp [h]
        simpa using ih
      · simp [h]
        simpa using ih

/-- C7: `broadcastToClients` delivers the one (single-serialization)
payload to exactly the sessions whose transport state is `OPEN` at call
time, silently skips every other session, and leaves the state — in
particular the session set — unchanged. -/
theorem broadcast_delivers_to_open_sessions (st : ServerState) (message : Envelope) :
    broadcastToClients st message =
      (st, (st.clients.filter fun cl => cl.readyState == .OPEN).map
        fun cl => Output.clientSend cl.id message) := by
  unfold broadcastToClients
  rw [filterMap_broadcast]

/-! ## Session unregistration (C8) -/

/-- C8: a transport error on a downstream session performs no
unregistration by itself (removal lives in the `close` handler, which the
socket always fires), so for a session observing both events the set
shrinks exactly once, in whichever order `close` and `error` arrive, and
repeating either handler changes nothing further; when the removal
empties the set, the connector is disconnected: the held reconnect timer
is cleared, the upstream socket variable is nulled, and the upstream
socket (when one existed) is closed. -/
theorem session_unregistered_once (st : ServerState) (c : Nat) :
    handleClientError st c = (st, [])
    ∧ (handleClientClose st c).1.clients = st.clients.filter (fun cl => cl.id != c)
    ∧ handleClientClose (handleClientError st c).1 c = handleClientClose st c
    ∧ handleClientError (handleClientClose st c).1 c = ((handleClientClose st c).1, [])
    ∧ (handleClientClose (handleClientClose st c).1 c).1.clients
        = (handleClientClose st c).1.clients
    ∧ (st.clients.filter (fun cl => cl.id != c) = [] →
        (handleClientClose st c).1.reconnectTimeout = st.reconnectTimeout.dropLast
        ∧ (handleClientClose st c).1.aisStreamSocket = none
        ∧ (st.aisStreamSocket.isSome → (handleClientClose st c).2 = [.closeUpstream])) := by
  have hclients : ∀ s : ServerState, (handleClientClose s c).1.clients
      = s.clients.filter (fun cl => cl.id != c) := by
    intro s
    unfold handleClientClose
    split
    · split <;> rfl
    · rfl
  refine ⟨rfl, hclients st, rfl, rfl, ?_, ?_⟩
  · rw [hclients, hclients]
    simp [List.filter_filter]
  · intro hempty
    unfold handleClientClose
    rw [if_pos (by rw [hempty]; rfl)]
    cases hsock : st.aisStreamSocket with
    | none => exact ⟨rfl, rfl, fun hs => by simp at hs⟩
    | some r => exact ⟨rfl, rfl, fun _ => rfl⟩

/-- C8 witness: closing the single registered session removes it, clears
the pending reconnect timer, and closes the upstream socket; a preceding
error event would have changed nothing. -/
theorem session_unregistered_once_witness :
    handleClientError
        { initialState with clients := [⟨7, .OPEN⟩],
                            aisStreamSocket := some .OPEN,
                            reconnectTimeout := [] } 7
      = ({ initialState with clients := [⟨7, .OPEN⟩],
                             aisStreamSocket := some .OPEN,
                             reconnectTimeout := [] }, [])
    ∧ (handleClientClose
        { initialState with clients := [⟨7, .OPEN⟩],
                            aisStreamSocket := some .OPEN,
                            reconnectTimeout := [] } 7).1.aisStreamSocket = none
    ∧ (handleClientClose
        { initialState with clients := [⟨7, .OPEN⟩],
                            aisStreamSocket := some .OPEN,
                            reconnectTimeout := [] } 7).2 = [.closeUpstream] := by
  have h := session_unregistered_once
    { initialState with clients := [⟨7, .OPEN⟩],
                        aisStreamSocket := some .OPEN,
                        reconnectTimeout := [] } 7
  have h6 := h.2.2.2.2.2 (by rfl)
  exact ⟨h.1, h6.2.1, h6.2.2 (by rfl)⟩

/-! ## Server credential on forwarded subscriptions (C9) -/

/-- Looking up the key just set. -/
theorem getField_setKey (fs : List (String × Json)) (k : String) (v : Json) :
    getField (setKey fs k v) k = some v := by
  induction fs with
  | nil => simp [setKey, getField]
  | cons p rest ih =>
      by_cases h : (p.1 == k) = true
      · simp [setKey, h, getField]
      · have h' : (p.1 == k) = false := Bool.eq_false_iff.mpr h
        simp [setKey, h', getField, ih]

/-- Setting a key twice keeps only the second value. -/
theorem setKey_setKey (fs : List (String × Json)) (k : String) (v w : Json) :
    setKey (setKey fs k v) k w = setKey fs k w := by
  induction fs with
  | nil => simp [setKey]
  | cons p rest ih =>
      by_cases h : (p.1 == k) = true
      · simp [setKey, h]
      · have h' : (p.1 == k) = false := Bool.eq_false_iff.mpr h
        simp [setKey, h', ih]

/-- C9: whenever the client-message handler forwards a subscription
upstream, the forwarded object carries the server-held API key; and the
handler's behaviour is identical for two viewer messages differing only
in the `APIKey` field the viewer supplied, so the credential sent
upstream never depends on viewer input. -/
theorem subscription_carries_server_key (st : ServerState) (raw : Option Json) (m : Json)
    (h : Output.upstreamSend m ∈ (handleClientMessage st raw).2) :
    jsGet m "APIKey" = some (.str API_KEY)
    ∧ ∀ (st' : ServerState) (sub : List (String × Json)) (v₁ v₂ : Json),
        handleClientMessage st' (some (.obj [("type", .str "subscribe"),
            ("subscription", .obj (setKey sub "APIKey" v₁))]))
          = handleClientMessage st' (some (.obj [("type", .str "subscribe"),
              ("subscription", .obj (setKey sub "APIKey" v₂))])) := by
  constructor
  · cases raw with
    | none => simp [handleClientMessage] at h
    | some data =>
        simp only [handleClientMessage] at h
        split at h
        · split at h
          · split at h
            · rw [List.mem_singleton] at h
              injection h with h'
              subst h'
              exact getField_setKey _ _ _
            · simp at h
          · simp at h
        · simp at h
  · intro st' sub v₁ v₂
    unfold handleClientMessage
    simp only [jsGet, getField, buildSubscription, spreadFields]
    by_cases hs : (st'.aisStreamSocket == some .OPEN) = true
    · simp [hs, truthyOpt, truthy, setKey_setKey]
    · have hs' : (st'.aisStreamSocket == some .OPEN) = false := Bool.eq_false_iff.mpr hs
      simp [hs', truthyOpt, truthy]

/-- C9 witness: a concrete subscription forwarded while the upstream is
open carries the server key. -/
theorem subscription_carries_server_key_witness :
    jsGet (buildSubscription (.obj [("BoundingBoxes", .arr [])])) "APIKey"
      = some (.str API_KEY) :=
  (subscription_carries_server_key
    { initialState with aisStreamSocket := some .OPEN }
    (some (.obj [("type", .str "subscribe"),
      ("subscription", .obj [("BoundingBoxes", .arr [])])]))
    (buildSubscription (.obj [("BoundingBoxes", .arr [])]))
    (List.mem_singleton_self _)).1

/-- The client-message handler never mutates the server state. -/
theorem handleClientMessage_state (st : ServerState) (raw : Option Json) :
    (handleClientMessage st raw).1 = st := by
  cases raw with
  | none => rfl
  | some data =>
      simp only [handleClientMessage]
      split
      · split
        · split <;> rfl
        · rfl
      · rfl

/-! ## Reconnect timer invariant (C2, C3) -/

/-- Structural invariant of reachable server states: a live reconnect
timer exists only while clients remain and the upstream socket variable
is null, and at most one timer is outstanding at any time. -/
def Inv (st : ServerState) : Prop :=
  (st.reconnectTimeout ≠ [] → st.clients ≠ [] ∧ st.aisStreamSocket = none)
  ∧ st.reconnectTimeout.length ≤ 1

theorem inv_initial : Inv initialState :=
  ⟨fun h => absurd rfl h, by simp [initialState]⟩

/-- `connectToAISStream` never touches the timer list, so a state with no
live timer stays invariant through it. -/
theorem inv_connect (st : ServerState) (h : st.reconnectTimeout = []) :
    Inv (connectToAISStream st).1 := by
  have key : (connectToAISStream st).1.reconnectTimeout = st.reconnectTimeout := by
    unfold connectToAISStream
    split <;> rfl
  constructor
  · intro hne
    rw [key, h] at hne
    exact absurd rfl hne
  · rw [key, h]
    simp

/-- A list of length at most one loses everything when its last element
is dropped. -/
theorem dropLast_eq_nil_of_length_le_one {l : List Nat} (h : l.length ≤ 1) :
    l.dropLast = [] := by
  cases l with
  | nil => rfl
  | cons a rest =>
      cases rest with
      | nil => rfl
      | cons b rest2 => simp at h

/-- Every event handler preserves the timer invariant. -/
theorem inv_step (cfg : FilterConfig) (st : ServerState) (e : Event)
    (hInv : Inv st) : Inv (step cfg st e).1 := by
  cases e with
  | clientConnect c =>
      simp only [step]
      unfold handleClientConnect
      split
      · exact hInv
      · split
        next hlen =>
          have hcl : st.clients = [] := by
            simpa [List.length_append] using hlen
          have ht : st.reconnectTimeout = [] := by
            by_cases hne : st.reconnectTimeout = []
            · exact hne
            · exact absurd hcl (fun h => (hInv.1 hne).1 h)
          exact inv_connect _ ht
        next =>
          split
          · constructor
            · intro hne
              exact ⟨by simp, (hInv.1 hne).2⟩
            · exact hInv.2
          · constructor
            · intro hne
              exact ⟨by simp, (hInv.1 hne).2⟩
            · exact hInv.2
  | clientMsg c raw =>
      show Inv (handleClientMessage st raw).1
      rw [handleClientMessage_state]
      exact hInv
  | clientClose c =>
      simp only [step]
      unfold handleClientClose
      have hdl : st.reconnectTimeout.dropLast = [] :=
        dropLast_eq_nil_of_length_le_one hInv.2
      split
      · split
        · exact ⟨fun hne => absurd hdl hne, by
            show st.reconnectTimeout.dropLast.length ≤ 1
            rw [hdl]; simp⟩
        · exact ⟨fun hne => absurd hdl hne, by
            show st.reconnectTimeout.dropLast.length ≤ 1
            rw [hdl]; simp⟩
      next hne0 =>
        constructor
        · intro hne
          refine ⟨?_, (hInv.1 hne).2⟩
          intro hnil
          have hnil2 : List.filter (fun cl => cl.id != c) st.clients = [] := hnil
          exact hne0 (by rw [hnil2]; rfl)
        · exact hInv.2
  | clientError c => exact hInv
  | upstreamOpen =>
      simp only [step]
      split
      next hguard =>
        have hs : st.aisStreamSocket = some .CONNECTING := by
          simpa using hguard
        have ht : st.reconnectTimeout = [] := by
          by_cases hne : st.reconnectTimeout = []
          · exact hne
          · rw [(hInv.1 hne).2] at hs; cases hs
        exact ⟨fun hne => absurd ht hne, by
          show st.reconnectTimeout.length ≤ 1
          exact hInv.2⟩
      next => exact hInv
  | upstreamMsg raw =>
      simp only [step]
      split
      · cases raw with
        | none => exact hInv
        | some m =>
            cases m with
            | null => exact hInv
            | bool b => simp only [handleUpstreamMessage]; split <;> exact hInv
            | num n => simp only [handleUpstreamMessage]; split <;> exact hInv
            | str s2 => simp only [handleUpstreamMessage]; split <;> exact hInv
            | arr xs => simp only [handleUpstreamMessage]; split <;> exact hInv
            | obj fs => simp only [handleUpstreamMessage]; split <;> exact hInv
      · exact hInv
  | upstreamError =>
      simp only [step]
      split
      next hguard =>
        have ht : st.reconnectTimeout = [] := by
          by_cases hne : st.reconnectTimeout = []
          · exact hne
          · rw [(hInv.1 hne).2] at hguard; simp at hguard
        exact ⟨fun hne => absurd ht hne, by
          show st.reconnectTimeout.length ≤ 1
          exact hInv.2⟩
      next => exact hInv
  | upstreamClose =>
      simp only [step]
      split
      next hguard =>
        have ht : st.reconnectTimeout = [] := by
          by_cases hne : st.reconnectTimeout = []
          · exact hne
          · rw [(hInv.1 hne).2] at hguard; simp at hguard
        unfold handleUpstreamClose
        split
        next hpos =>
          constructor
          · intro _
            exact ⟨by
              intro hnil
              rw [hnil] at hpos
              simp at hpos, rfl⟩
          · show (st.reconnectTimeout ++ [5000]).length ≤ 1
            rw [ht]; simp
        next =>
          exact ⟨fun hne => absurd ht hne, by
            show st.reconnectTimeout.length ≤ 1
            exact hInv.2⟩
      next => exact hInv
  | timerFire =>
      simp only [step]
      unfold handleTimerFire
      split
      · exact hInv
      next a rest heq =>
        have hrest : rest = [] := by
          have h2 := hInv.2
          rw [heq] at h2
          simpa using h2
        apply inv_connect
        show rest = []
        exact hrest

/-- The invariant holds in every reachable state. -/
theorem inv_reachable (cfg : FilterConfig) (st : ServerState)
    (h : Reachable cfg st) : Inv st := by
  obtain ⟨evs, hev⟩ := h
  rw [← hev]
  clear hev
  suffices H : ∀ (evs : List Event) (st0 : ServerState), Inv st0 →
      Inv (execList cfg st0 evs) from H evs initialState inv_initial
  intro evs
  induction evs with
  | nil => intro st0 h0; exact h0
  | cons e rest ih => intro st0 h0; exact ih _ (inv_step cfg st0 e h0)

/-- C2: in every reachable state where the upstream socket exists (so an
unsolicited upstream close can fire), no reconnect timer is outstanding
yet; processing the close event schedules exactly one reconnect timer at
the fixed 5000 ms delay when the session count is positive, and none at
all when it is zero. -/
theorem reconnect_scheduled_on_close (cfg : FilterConfig) (st : ServerState)
    (h : Reachable cfg st) (hs : st.aisStreamSocket.isSome = true) :
    st.reconnectTimeout = []
    ∧ (step cfg st .upstreamClose).1.reconnectTimeout
        = (if st.clients.isEmpty then [] else [5000]) := by
  have hInv := inv_reachable cfg st h
  have ht : st.reconnectTimeout = [] := by
    by_cases hne : st.reconnectTimeout = []
    · exact hne
    · rw [(hInv.1 hne).2] at hs; simp at hs
  refine ⟨ht, ?_⟩
  simp only [step]
  rw [if_pos hs]
  unfold handleUpstreamClose
  cases hcl : st.clients with
  | nil => simp [ht]
  | cons a rest => simp [ht]

/-- C2 witness: after one client joins and the upstream opens, the state
is reachable with an open socket and no pending timer; the close event
then schedules the single 5-second timer. -/
theorem reconnect_scheduled_on_close_witness :
    (execList ⟨none, none⟩ initialState
        [.clientConnect 0, .upstreamOpen]).reconnectTimeout = []
    ∧ (step ⟨none, none⟩
        (execList ⟨none, none⟩ initialState [.clientConnect 0, .upstreamOpen])
        .upstreamClose).1.reconnectTimeout
        = (if (execList ⟨none, none⟩ initialState
              [.clientConnect 0, .upstreamOpen]).clients.isEmpty then [] else [5000]) :=
  reconnect_scheduled_on_close ⟨none, none⟩ _
    ⟨[.clientConnect 0, .upstreamOpen], rfl⟩ rfl

/-- C3: with a single registered session and a live upstream socket, an
upstream close schedules the 5-second reconnect timer; if that last
session then unregisters before the timer fires, the close handler
cancels the timer synchronously, the connector is left idle (no socket,
not connecting, no timer), and a later timer-fire event is a no-op — the
cancelled timer never reconnects. -/
theorem disconnect_cancels_reconnect (cfg : FilterConfig) (st : ServerState)
    (c : Nat) (r s : ReadyState)
    (hc : st.clients = [Client.mk c r]) (hs : st.aisStreamSocket = some s)
    (ht : st.reconnectTimeout = []) :
    (step cfg st .upstreamClose).1.reconnectTimeout = [5000]
    ∧ (step cfg (step cfg st .upstreamClose).1 (.clientClose c)).1.reconnectTimeout = []
    ∧ (step cfg (step cfg st .upstreamClose).1 (.clientClose c)).1.aisStreamSocket = none
    ∧ (step cfg (step cfg st .upstreamClose).1 (.clientClose c)).1.isConnecting = false
    ∧ step cfg (step cfg (step cfg st .upstreamClose).1 (.clientClose c)).1 .timerFire
        = ((step cfg (step cfg st .upstreamClose).1 (.clientClose c)).1, []) := by
  rcases st with ⟨cl, sock, tm, ic, a1, a2, a3⟩
  obtain rfl : cl = [Client.mk c r] := hc
  obtain rfl : sock = some s := hs
  obtain rfl : tm = [] := ht
  refine ⟨?_, ?_, ?_, ?_, ?_⟩ <;>
    simp [step, handleUpstreamClose, handleClientClose, handleTimerFire,
      broadcastToClients]

/-- C3 witness: the cancellation scenario at a concrete state. -/
theorem disconnect_cancels_reconnect_witness :
    (step ⟨none, none⟩
        { initialState with clients := [Client.mk 0 .OPEN],
                            aisStreamSocket := some .OPEN }
        .upstreamClose).1.reconnectTimeout = [5000]
    ∧ (step ⟨none, none⟩
        (step ⟨none, none⟩
          { initialState with clients := [Client.mk 0 .OPEN],
                              aisStreamSocket := some .OPEN }
          .upstreamClose).1 (.clientClose 0)).1.reconnectTimeout = []
    ∧ (step ⟨none, none⟩
        (step ⟨none, none⟩
          { initialState with clients := [Client.mk 0 .OPEN],
                              aisStreamSocket := some .OPEN }
          .upstreamClose).1 (.clientClose 0)).1.aisStreamSocket = none
    ∧ (step ⟨none, none⟩
        (step ⟨none, none⟩
          { initialState with clients := [Client.mk 0 .OPEN],
                              aisStreamSocket := some .OPEN }
          .upstreamClose).1 (.clientClose 0)).1.isConnecting = false
    ∧ step ⟨none, none⟩
        (step ⟨none, none⟩
          (step ⟨none, none⟩
            { initialState with clients := [Client.mk 0 .OPEN],
                                aisStreamSocket := some .OPEN }
            .upstreamClose).1 (.clientClose 0)).1 .timerFire
        = ((step ⟨none, none⟩
            (step ⟨none, none⟩
              { initialState with clients := [Client.mk 0 .OPEN],
                                  aisStreamSocket := some .OPEN }
              .upstreamClose).1 (.clientClose 0)).1, []) :=
  disconnect_cancels_reconnect ⟨none, none⟩ _ 0 .OPEN .OPEN rfl rfl rfl

/-! ## Statistics counters (C5) and malformed payloads (C6) -/

/-- Per-message effect of the upstream message handler on the three
counters: `received` always advances by one; `forwarded + filtered`
advances by one for exactly the payloads the handler can process (i.e.
everything except a parse failure and a parsed `null`, whose property
access throws into the catch block), and no counter ever decreases. -/
theorem stats_handleUpstreamMessage (cfg : FilterConfig) (st : ServerState)
    (raw : Option Json) :
    (handleUpstreamMessage cfg st raw).1.totalMessagesReceived
        = st.totalMessagesReceived + 1
    ∧ ((raw = none ∨ raw = some .null) →
        (handleUpstreamMessage cfg st raw).1.totalMessagesForwarded
          + (handleUpstreamMessage cfg st raw).1.totalMessagesFiltered
          = st.totalMessagesForwarded + st.totalMessagesFiltered)
    ∧ (∀ m, raw = some m → m ≠ .null →
        (handleUpstreamMessage cfg st raw).1.totalMessagesForwarded
          + (handleUpstreamMessage cfg st raw).1.totalMessagesFiltered
          = st.totalMessagesForwarded + st.totalMessagesFiltered + 1)
    ∧ st.totalMessagesForwarded
        ≤ (handleUpstreamMessage cfg st raw).1.totalMessagesForwarded
    ∧ st.totalMessagesFiltered
        ≤ (handleUpstreamMessage cfg st raw).1.totalMessagesFiltered := by
  cases raw with
  | none =>
      refine ⟨rfl, fun _ => rfl, ?_, le_refl _, le_refl _⟩
      intro m hm
      cases hm
  | some m =>
      cases m with
      | null =>
          refine ⟨rfl, fun _ => rfl, ?_, le_refl _, le_refl _⟩
          intro m2 hm2 hnn
          injection hm2 with h2
          exact absurd h2.symm hnn
      | bool b =>
          simp only [handleUpstreamMessage]
          split <;>
            exact ⟨rfl, by rintro (h | h) <;> simp_all,
              fun m2 hm2 hnn => by dsimp only; omega,
              by dsimp only; omega, by dsimp only; omega⟩
      | num n =>
          simp only [handleUpstreamMessage]
          split <;>
            exact ⟨rfl, by rintro (h | h) <;> simp_all,
              fun m2 hm2 hnn => by dsimp only; omega,
              by dsimp only; omega, by dsimp only; omega⟩
      | str s2 =>
          simp only [handleUpstreamMessage]
          split <;>
            exact ⟨rfl, by rintro (h | h) <;> simp_all,
              fun m2 hm2 hnn => by dsimp only; omega,
              by dsimp only; omega, by dsimp only; omega⟩
      | arr xs =>
          simp only [handleUpstreamMessage]
          split <;>
            exact ⟨rfl, by rintro (h | h) <;> simp_all,
              fun m2 hm2 hnn => by dsimp only; omega,
              by dsimp only; omega, by dsimp only; omega⟩
      | obj fs =>
          simp only [handleUpstreamMessage]
          split <;>
            exact ⟨rfl, by rintro (h | h) <;> simp_all,
              fun m2 hm2 hnn => by dsimp only; omega,
              by dsimp only; omega, by dsimp only; omega⟩

/-- Every event other than an upstream message leaves all three counters
untouched: the counters are written only by the message-handling path. -/
theorem stats_step_other (cfg : FilterConfig) (st : ServerState) (e : Event)
    (h : ∀ raw, e ≠ Event.upstreamMsg raw) :
    (step cfg st e).1.totalMessagesReceived = st.totalMessagesReceived
    ∧ (step cfg st e).1.totalMessagesFiltered = st.totalMessagesFiltered
    ∧ (step cfg st e).1.totalMessagesForwarded = st.totalMessagesForwarded := by
  cases e with
  | upstreamMsg raw => exact absurd rfl (h raw)
  | clientConnect c =>
      simp only [step]
      unfold handleClientConnect connectToAISStream
      split
      · exact ⟨rfl, rfl, rfl⟩
      · split
        · split <;> exact ⟨rfl, rfl, rfl⟩
        · split <;> exact ⟨rfl, rfl, rfl⟩
  | clientMsg c raw =>
      have h1 : (step cfg st (Event.clientMsg c raw)).1 = st :=
        handleClientMessage_state st raw
      rw [h1]
      exact ⟨rfl, rfl, rfl⟩
  | clientClose c =>
      simp only [step]
      unfold handleClientClose
      split
      · split <;> exact ⟨rfl, rfl, rfl⟩
      · exact ⟨rfl, rfl, rfl⟩
  | clientError c => exact ⟨rfl, rfl, rfl⟩
  | upstreamOpen =>
      simp only [step]
      split <;> exact ⟨rfl, rfl, rfl⟩
  | upstreamError =>
      simp only [step]
      split <;> exact ⟨rfl, rfl, rfl⟩
  | upstreamClose =>
      simp only [step]
      split
      · unfold handleUpstreamClose
        split <;> exact ⟨rfl, rfl, rfl⟩
      · exact ⟨rfl, rfl, rfl⟩
  | timerFire =>
      simp only [step]
      unfold handleTimerFire connectToAISStream
      split
      · exact ⟨rfl, rfl, rfl⟩
      · split <;> exact ⟨rfl, rfl, rfl⟩

/-- C5 counterexample: a well-formed position report that carries no
extractable identifier is nevertheless forwarded AND counted in
`forwarded`, so after it `received` equals — does not exceed — the sum
`forwarded + filtered`, contradicting the claim that `received` exceeds
the sum exactly when the identifier is absent and the message passes
through unfiltered. -/
theorem stats_gap_claim_cex :
    (extractMMSI (.obj [("Message", .obj [("Sog", .num 5)])])).isNone = true
    ∧ (execList ⟨some 200000000, some 299999999⟩ initialState
        [.clientConnect 0, .upstreamOpen,
         .upstreamMsg (some (.obj [("Message", .obj [("Sog", .num 5)])]))]).totalMessagesForwarded
        = 1
    ∧ ¬ ((execList ⟨some 200000000, some 299999999⟩ initialState
        [.clientConnect 0, .upstreamOpen,
         .upstreamMsg (some (.obj [("Message", .obj [("Sog", .num 5)])]))]).totalMessagesReceived
        > (execList ⟨some 200000000, some 299999999⟩ initialState
            [.clientConnect 0, .upstreamOpen,
             .upstreamMsg (some (.obj [("Message", .obj [("Sog", .num 5)])]))]).totalMessagesForwarded
          + (execList ⟨some 200000000, some 299999999⟩ initialState
              [.clientConnect 0, .upstreamOpen,
               .upstreamMsg (some (.obj [("Message", .obj [("Sog", .num 5)])]))]).totalMessagesFiltered) :=
  ⟨rfl, rfl, by decide⟩

/-- C5 (amended): the three counters are monotonically non-decreasing,
are written only by the upstream message-handling path, always satisfy
`forwarded + filtered ≤ received`, and `received` exceeds the sum by
exactly one per malformed payload (a parse failure, or a parsed `null`
whose property access throws); every processable message — including one
with an absent identifier, which is forwarded — advances the sum by
one together with `received`. -/
theorem stats_counters_amended (cfg : FilterConfig) (st : ServerState) (e : Event) :
    (st.totalMessagesReceived ≤ (step cfg st e).1.totalMessagesReceived
      ∧ st.totalMessagesFiltered ≤ (step cfg st e).1.totalMessagesFiltered
      ∧ st.totalMessagesForwarded ≤ (step cfg st e).1.totalMessagesForwarded)
    ∧ ((∀ raw, e ≠ .upstreamMsg raw) →
        (step cfg st e).1.totalMessagesReceived = st.totalMessagesReceived
        ∧ (step cfg st e).1.totalMessagesFiltered = st.totalMessagesFiltered
        ∧ (step cfg st e).1.totalMessagesForwarded = st.totalMessagesForwarded)
    ∧ (st.totalMessagesForwarded + st.totalMessagesFiltered ≤ st.totalMessagesReceived →
        (step cfg st e).1.totalMessagesForwarded + (step cfg st e).1.totalMessagesFiltered
          ≤ (step cfg st e).1.totalMessagesReceived)
    ∧ (∀ raw, e = .upstreamMsg raw → st.aisStreamSocket = some .OPEN →
        (step cfg st e).1.totalMessagesReceived = st.totalMessagesReceived + 1
        ∧ ((raw = none ∨ raw = some .null) →
            (step cfg st e).1.totalMessagesForwarded + (step cfg st e).1.totalMessagesFiltered
              = st.totalMessagesForwarded + st.totalMessagesFiltered)
        ∧ (∀ m, raw = some m → m ≠ .null →
            (step cfg st e).1.totalMessagesForwarded + (step cfg st e).1.totalMessagesFiltered
              = st.totalMessagesForwarded + st.totalMessagesFiltered + 1)) := by
  by_cases he : ∃ raw, e = .upstreamMsg raw
  · obtain ⟨raw, rfl⟩ := he
    by_cases hs : st.aisStreamSocket = some ReadyState.OPEN
    · have hred : step cfg st (.upstreamMsg raw) = handleUpstreamMessage cfg st raw := by
        simp [step, hs]
      rw [hred]
      have H := stats_handleUpstreamMessage cfg st raw
      refine ⟨⟨?_, H.2.2.2.2, H.2.2.2.1⟩, ?_, ?_, ?_⟩
      · rw [H.1]; omega
      · intro hno; exact absurd rfl (hno raw)
      · intro hle
        rw [H.1]
        rcases raw with _ | m
        · rw [H.2.1 (Or.inl rfl)]; omega
        · by_cases hm : m = .null
          · subst hm; rw [H.2.1 (Or.inr rfl)]; omega
          · rw [H.2.2.1 m rfl hm]; omega
      · intro raw2 heq hs2
        injection heq with h2
        subst h2
        exact ⟨H.1, H.2.1, H.2.2.1⟩
    · have hred : step cfg st (.upstreamMsg raw) = (st, []) := by
        simp [step, hs]
      rw [hred]
      refine ⟨⟨le_refl _, le_refl _, le_refl _⟩, fun _ => ⟨rfl, rfl, rfl⟩,
        fun h2 => h2, ?_⟩
      intro raw2 heq hs2
      exact absurd hs2 hs
  · push_neg at he
    have H := stats_step_other cfg st e he
    refine ⟨⟨le_of_eq H.1.symm, le_of_eq H.2.1.symm, le_of_eq H.2.2.symm⟩,
      fun _ => H, ?_, ?_⟩
    · intro hle
      rw [H.1, H.2.1, H.2.2]
      exact hle
    · intro raw heq
      exact absurd heq (he raw)

/-- C5 witness: a malformed payload on an open upstream advances
`received` while leaving `forwarded + filtered` unchanged. -/
theorem stats_counters_amended_witness :
    (step ⟨none, none⟩ { initialState with aisStreamSocket := some .OPEN }
        (.upstreamMsg none)).1.totalMessagesReceived
      = ({ initialState with aisStreamSocket := some .OPEN } : ServerState).totalMessagesReceived + 1
    ∧ (step ⟨none, none⟩ { initialState with aisStreamSocket := some .OPEN }
          (.upstreamMsg none)).1.totalMessagesForwarded
        + (step ⟨none, none⟩ { initialState with aisStreamSocket := some .OPEN }
            (.upstreamMsg none)).1.totalMessagesFiltered
      = ({ initialState with aisStreamSocket := some .OPEN } : ServerState).totalMessagesForwarded
        + ({ initialState with aisStreamSocket := some .OPEN } : ServerState).totalMessagesFiltered := by
  have H := (stats_counters_amended ⟨none, none⟩
    { initialState with aisStreamSocket := some .OPEN }
    (.upstreamMsg none)).2.2.2 none rfl rfl
  exact ⟨H.1, H.2.1 (Or.inl rfl)⟩

/-- C6: a malformed (unparseable) upstream payload only bumps the
pre-parse `received` counter — the rest of the state, in particular the
session set and the upstream socket, is untouched — produces no output
at all (no session receives any envelope), and a subsequent upstream
message is processed exactly as it would have been without the malformed
one. -/
theorem malformed_payload_dropped (cfg : FilterConfig) (st : ServerState)
    (hs : st.aisStreamSocket = some .OPEN) :
    (step cfg st (.upstreamMsg none)).1
        = { st with totalMessagesReceived := st.totalMessagesReceived + 1 }
    ∧ (step cfg st (.upstreamMsg none)).2 = []
    ∧ ∀ raw2 : Option Json,
        (step cfg (step cfg st (.upstreamMsg none)).1 (.upstreamMsg raw2)).2
          = (step cfg st (.upstreamMsg raw2)).2 := by
  have hred : ∀ raw, step cfg st (.upstreamMsg raw) = handleUpstreamMessage cfg st raw := by
    intro raw
    simp [step, hs]
  refine ⟨by rw [hred none]; rfl, by rw [hred none]; rfl, ?_⟩
  intro raw2
  rw [hred none, hred raw2]
  have hred2 : step cfg
      { st with totalMessagesReceived := st.totalMessagesReceived + 1 }
      (.upstreamMsg raw2)
      = handleUpstreamMessage cfg
          { st with totalMessagesReceived := st.totalMessagesReceived + 1 } raw2 := by
    simp [step, hs]
  show (step cfg { st with totalMessagesReceived := st.totalMessagesReceived + 1 }
      (.upstreamMsg raw2)).2 = _
  rw [hred2]
  cases raw2 with
  | none => rfl
  | some m =>
      cases m with
      | null => rfl
      | bool b => simp only [handleUpstreamMessage]; split <;> rfl
      | num n => simp only [handleUpstreamMessage]; split <;> rfl
      | str s2 => simp only [handleUpstreamMessage]; split <;> rfl
      | arr xs => simp only [handleUpstreamMessage]; split <;> rfl
      | obj fs => simp only [handleUpstreamMessage]; split <;> rfl

/-- C6 witness: the malformed-payload guarantees at a concrete state with
one open session, followed by a concrete valid message. -/
theorem malformed_payload_dropped_witness :
    (step ⟨none, none⟩
        { initialState with aisStreamSocket := some .OPEN,
                            clients := [Client.mk 0 .OPEN] }
        (.upstreamMsg none)).1
      = { ({ initialState with aisStreamSocket := some .OPEN,
                               clients := [Client.mk 0 .OPEN] } : ServerState) with
          totalMessagesReceived :=
            ({ initialState with aisStreamSocket := some .OPEN,
                                 clients := [Client.mk 0 .OPEN] } : ServerState).totalMessagesReceived + 1 }
    ∧ (step ⟨none, none⟩
        { initialState with aisStreamSocket := some .OPEN,
                            clients := [Client.mk 0 .OPEN] }
        (.upstreamMsg none)).2 = []
    ∧ (step ⟨none, none⟩
        (step ⟨none, none⟩
          { initialState with aisStreamSocket := some .OPEN,
                              clients := [Client.mk 0 .OPEN] }
          (.upstreamMsg none)).1
        (.upstreamMsg (some (.obj [("MetaData", .obj [("MMSI", .num 205000000)])])))).2
      = (step ⟨none, none⟩
          { initialState with aisStreamSocket := some .OPEN,
                              clients := [Client.mk 0 .OPEN] }
          (.upstreamMsg (some (.obj [("MetaData", .obj [("MMSI", .num 205000000)])])))).2 := by
  have H := malformed_payload_dropped ⟨none, none⟩
    { initialState with aisStreamSocket := some .OPEN,
                        clients := [Client.mk 0 .OPEN] } rfl
  exact ⟨H.1, H.2.1, H.2.2 (some (.obj [("MetaData", .obj [("MMSI", .num 205000000)])]))⟩

end Maritime
